import Mathlib

/-!
# Verification of the EnviroNet Analyzer correlation engine

A shallow embedding of the correlation engine (`src/correlate/correlator.cpp`),
the configuration validator (`src/core/config.cpp`) and the sensor frame CRC
logic (`src/sensors/arduino_i2c.cpp`), with theorems settling the claims of
the specification against the code.

Machine integers are modelled as `Nat`/`Int`, with an explicit `% 2 ^ 64`
(resp. `% 65536`) wherever the C++ performs unsigned arithmetic that can wrap.
`double` fields are modelled as `Rat`; the code under verification only ever
produces the literal `0.0` for them, so no floating-point rounding is involved.
The steady clock read by `Correlator::get_current_time_ms` is modelled by
passing the current reading as an explicit `now : Nat` argument to each
operation that calls it.
-/

namespace Environet

/-- `2 ^ 64`, the modulus of `uint64_t` arithmetic (written out to keep kernel
reduction on literals). -/
def U64 : Nat := 18446744073709551616

/-- `2 ^ 16`, the modulus of `uint16_t` arithmetic. -/
def U16 : Nat := 65536

/-- `static_cast<uint64_t>` applied to a C++ `int` value, i.e. reduction
modulo `2 ^ 64` of the two's-complement value. -/
def toU64 (i : Int) : Nat := (i % (U64 : Int)).toNat

/-- Sensor frame as laid out in `include/sensors/arduino_i2c.hpp`
(`#pragma pack(1)`, little-endian): `uint32_t ts_ms; int16_t ir_raw;
uint16_t ultra_mm; uint8_t status; uint8_t reserved; uint16_t crc16;`. -/
structure SensorFrame where
  ts_ms : Nat
  ir_raw : Int
  ultra_mm : Nat
  status : Nat
  reserved : Nat
  crc16 : Nat
  deriving Repr, DecidableEq

/-- Access-point sighting, from `include/net/wifi_scan.hpp` (`BssInfo`). -/
structure BssInfo where
  ssid : String := ""
  bssid : String := ""
  freq : Int := 0
  signal_mbm : Int := 0
  last_seen_ms : Nat := 0
  channel : Int := 0
  capabilities : String := ""
  is_connected : Bool := false
  deriving Repr, DecidableEq

/-- Captured-packet metadata, from `include/net/pcap_sniffer.hpp`
(`PacketMeta`). -/
structure PacketMeta where
  timestamp_ms : Nat := 0
  length : Nat := 0
  src_mac : String := ""
  dst_mac : String := ""
  ethertype : Nat := 0
  src_ip : String := ""
  dst_ip : String := ""
  src_port : Nat := 0
  dst_port : Nat := 0
  protocol : Nat := 0
  signal_strength : Int := 0
  noise_level : Int := 0
  deriving Repr, DecidableEq

/-- Reachability probe result, from `include/net/metrics.hpp` (`PingStats`). -/
structure PingStats where
  target : String := ""
  reachable : Bool := false
  min_rtt_ms : Rat := 0
  avg_rtt_ms : Rat := 0
  max_rtt_ms : Rat := 0
  stddev_rtt_ms : Rat := 0
  packets_sent : Int := 0
  packets_received : Int := 0
  packets_lost : Int := 0
  loss_percentage : Rat := 0
  timestamp_ms : Nat := 0
  deriving Repr, DecidableEq

/-- Throughput probe result, from `include/net/metrics.hpp`
(`Iperf3Results`). -/
structure Iperf3Results where
  server : String := ""
  protocol : String := ""
  bandwidth_mbps : Rat := 0
  jitter_ms : Rat := 0
  packet_loss : Rat := 0
  duration_seconds : Int := 0
  timestamp_ms : Nat := 0
  success : Bool := false
  error_message : String := ""
  deriving Repr, DecidableEq

/-- Correlation finding, from `include/correlate/correlator.hpp` (`Finding`),
with the field defaults of its default constructor. -/
structure Finding where
  timestamp_ms : Nat := 0
  event_type : String := ""
  description : String := ""
  ir_raw_delta : Rat := 0
  ultra_distance_delta : Rat := 0
  sensor_status : Nat := 0
  rssi_avg : Rat := 0
  rssi_delta : Rat := 0
  ping_latency_delta : Rat := 0
  packet_loss_delta : Rat := 0
  throughput_delta : Rat := 0
  correlation_window_ms : Int := 0
  sensor_threshold : Int := 0
  affected_networks : List String := []
  deriving Repr, DecidableEq

/-- Time-series data point, from `include/correlate/correlator.hpp`
(`TimeSeriesPoint<T>`). -/
structure TimeSeriesPoint (T : Type) where
  timestamp_ms : Nat
  value : T
  deriving Repr, DecidableEq

/-- Minimal model of `nlohmann::json` values, enough to express the JSON
objects the correlator produces (`get_stats`, `calculate_window_stats`). A
default-constructed `nlohmann::json` (`return {};`) is the `null` value. -/
inductive Json where
  | null : Json
  | num (n : Nat) : Json
  | str (s : String) : Json
  | arr (elems : List Json) : Json
  | obj (fields : List (String × Json)) : Json
  deriving Repr

/-- Look a key up in the field list of a JSON object. -/
def jsonFind (fields : List (String × Json)) (key : String) : Option Json :=
  match fields with
  | [] => none
  | (k, v) :: rest => if k = key then some v else jsonFind rest key

/-- Read the list of affected network names out of a window-statistics JSON
value: the strings under the key `affected_networks`, or the empty list when
the value is not an object or carries no such array. -/
def affectedNetworksOf (j : Json) : List String :=
  match j with
  | Json.obj fields =>
    match jsonFind fields "affected_networks" with
    | some (Json.arr elems) =>
      elems.filterMap (fun e => match e with | Json.str s => some s | _ => none)
    | _ => []
  | _ => []

end Environet

namespace Environet.Core

/-- `Config::I2CConfig` with its member-initializer defaults
(`include/core/config.hpp`). -/
structure I2CConfig where
  mock_mode : Bool := true
  bus_id : Int := 1
  addr : Int := 16
  sample_interval_ms : Int := 100
  deriving Repr, DecidableEq

/-- `Config::WifiConfig` with its defaults. -/
structure WifiConfig where
  iface_ap : String := "wlan1"
  iface_scan : String := "wlan0"
  scan_interval_ms : Int := 5000
  monitor_mode : Bool := false
  deriving Repr, DecidableEq

/-- `Config::PcapConfig` with its defaults (`max_file_size_mb` is a
`size_t`, modelled as `Nat`). -/
structure PcapConfig where
  bpf : String := "not (type mgt)"
  output_dir : String := "captures"
  max_file_size_mb : Nat := 100
  max_files : Int := 10
  deriving Repr, DecidableEq

/-- `Config::CorrelatorConfig` with its defaults. -/
structure CorrelatorConfig where
  sensor_threshold : Int := 200
  window_ms : Int := 5000
  findings_dir : String := "findings"
  deriving Repr, DecidableEq

/-- `Config::LoggingConfig` with its defaults. -/
structure LoggingConfig where
  level : String := "info"
  file : String := "/var/log/environet/environet.log"
  console : Bool := true
  max_size_mb : Nat := 5
  max_files : Int := 3
  deriving Repr, DecidableEq

/-- `Config::MetricsConfig` with its defaults (the duration field is the one
`config.cpp` reads and validates as `metrics.iperf3_duration`). -/
structure MetricsConfig where
  ping_targets : List String := ["8.8.8.8", "1.1.1.1"]
  iperf_server : String := ""
  ping_interval_ms : Int := 10000
  iperf3_duration : Int := 10
  deriving Repr, DecidableEq

/-- `environet::core::Config`: the six configuration sections. -/
structure Config where
  i2c : I2CConfig := {}
  wifi : WifiConfig := {}
  pcap : PcapConfig := {}
  correlator : CorrelatorConfig := {}
  logging : LoggingConfig := {}
  metrics : MetricsConfig := {}
  deriving Repr, DecidableEq

/-- `Config::get_defaults()`: all member-initializer defaults
(`set_defaults` is empty, the defaults come from the field initializers). -/
def Config.get_defaults : Config := {}

/-- `Config::validate()` from `src/core/config.cpp`, check for check in
source order; a thrown `std::runtime_error` is modelled as `Except.error`
carrying the exception message. -/
def Config.validate (cfg : Config) : Except String Unit :=
  if cfg.i2c.bus_id < 0 then
    Except.error "i2c.bus_id must be >= 0"
  else if cfg.i2c.addr ≤ 0 ∨ cfg.i2c.addr > 0x7f then
    Except.error "i2c.addr must be 1..127"
  else if cfg.i2c.sample_interval_ms ≤ 0 then
    Except.error "i2c.sample_interval_ms must be > 0"
  else if cfg.wifi.scan_interval_ms ≤ 0 then
    Except.error "wifi.scan_interval_ms must be > 0"
  else if cfg.pcap.max_file_size_mb ≤ 0 then
    Except.error "pcap.max_file_size_mb must be > 0"
  else if cfg.pcap.max_files ≤ 0 then
    Except.error "pcap.max_files must be > 0"
  else if cfg.correlator.window_ms ≤ 0 then
    Except.error "correlator.window_ms must be > 0"
  else if cfg.logging.max_size_mb ≤ 0 then
    Except.error "logging.max_size_mb must be > 0"
  else if cfg.logging.max_files ≤ 0 then
    Except.error "logging.max_files must be > 0"
  else if cfg.metrics.ping_interval_ms ≤ 0 then
    Except.error "metrics.ping_interval_ms must be > 0"
  else if cfg.metrics.iperf3_duration ≤ 0 then
    Except.error "metrics.iperf3_duration must be > 0"
  else
    Except.ok ()

end Environet.Core

namespace Environet.Correlate

open Environet

/-- State of `environet::correlate::Correlator`
(`include/correlate/correlator.hpp`): configuration fields, the five
time-series buffers, the findings ledger, the counters and the last error
string. The `std::function` callback member is omitted: no statement in the
source ever invokes `finding_callback_`, so it has no observable effect on
any modelled operation. -/
structure Correlator where
  sensor_threshold : Int
  correlation_window_ms : Int
  findings_dir : String
  sensor_buffer : List (TimeSeriesPoint SensorFrame)
  bss_buffer : List (TimeSeriesPoint BssInfo)
  packet_buffer : List (TimeSeriesPoint PacketMeta)
  ping_buffer : List (TimeSeriesPoint PingStats)
  iperf_buffer : List (TimeSeriesPoint Iperf3Results)
  findings : List Finding
  sensor_events : Nat
  network_events : Nat
  correlations_found : Nat
  start_time_ms : Nat
  last_error : String

/-- `Correlator::Correlator(const std::string&)` from
`src/correlate/correlator.cpp`: the `config_path` parameter is commented out
and never read; every field is set to its hard-coded initializer (buffers and
ledger empty, counters zero, `last_error_` a default-constructed empty
string). -/
def Correlator.construct (_config_path : String) : Correlator :=
  { sensor_threshold := 200
    correlation_window_ms := 5000
    findings_dir := "findings"
    sensor_buffer := []
    bss_buffer := []
    packet_buffer := []
    ping_buffer := []
    iperf_buffer := []
    findings := []
    sensor_events := 0
    network_events := 0
    correlations_found := 0
    start_time_ms := 0
    last_error := "" }

/-- `Correlator::init()`: records the current steady-clock reading into
`start_time_ms_` and returns `true`. The clock reading is passed in as
`now`. -/
def Correlator.init (c : Correlator) (now : Nat) : Correlator × Bool :=
  ({ c with start_time_ms := now }, true)

/-- `Correlator::push_sensor`: appends `{get_current_time_ms(), frame}` to
`sensor_buffer_`; the clock reading is the explicit argument `now`. The
producer-supplied `frame.ts_ms` plays no part in the stored timestamp. -/
def Correlator.push_sensor (c : Correlator) (now : Nat) (frame : SensorFrame) :
    Correlator :=
  { c with sensor_buffer := c.sensor_buffer ++ [⟨now, frame⟩] }

/-- `Correlator::push_bss`: appends `{get_current_time_ms(), bss}` to
`bss_buffer_`. -/
def Correlator.push_bss (c : Correlator) (now : Nat) (bss : BssInfo) :
    Correlator :=
  { c with bss_buffer := c.bss_buffer ++ [⟨now, bss⟩] }

/-- `Correlator::push_packet`: appends `{get_current_time_ms(), pkt}` to
`packet_buffer_`. -/
def Correlator.push_packet (c : Correlator) (now : Nat) (pkt : PacketMeta) :
    Correlator :=
  { c with packet_buffer := c.packet_buffer ++ [⟨now, pkt⟩] }

/-- `Correlator::push_ping_stats`: appends `{get_current_time_ms(), ps}` to
`ping_buffer_`. -/
def Correlator.push_ping_stats (c : Correlator) (now : Nat) (ps : PingStats) :
    Correlator :=
  { c with ping_buffer := c.ping_buffer ++ [⟨now, ps⟩] }

/-- `Correlator::push_iperf3_results`: appends `{get_current_time_ms(), r}`
to `iperf_buffer_`. -/
def Correlator.push_iperf3_results (c : Correlator) (now : Nat)
    (r : Iperf3Results) : Correlator :=
  { c with iperf_buffer := c.iperf_buffer ++ [⟨now, r⟩] }

/-- `Correlator::process()` from `src/correlate/correlator.cpp`: the body is
`// Stub: no real correlation yet` followed by `return {};`. It reads and
mutates nothing and returns the empty finding vector. -/
def Correlator.process (c : Correlator) : Correlator × List Finding :=
  (c, [])

/-- `Correlator::get_findings()`: returns the findings ledger. -/
def Correlator.get_findings (c : Correlator) : List Finding :=
  c.findings

/-- `Correlator::get_stats()`: a JSON object with the three counters. -/
def Correlator.get_stats (c : Correlator) : Json :=
  Json.obj [("sensor_events", Json.num c.sensor_events),
            ("network_events", Json.num c.network_events),
            ("correlations_found", Json.num c.correlations_found)]

/-- `Correlator::get_last_error()`: returns `last_error_`. -/
def Correlator.get_last_error (c : Correlator) : String :=
  c.last_error

/-- `Correlator::cleanup_old_data()`: the body is empty — it removes
nothing. -/
def Correlator.cleanup_old_data (c : Correlator) : Correlator :=
  c

/-- `Correlator::correlate_sensor_event(const SensorFrame&)`: the body is
`return {};` — no trigger detection, no findings. -/
def Correlator.correlate_sensor_event (_c : Correlator) (_frame : SensorFrame) :
    List Finding :=
  []

/-- `Correlator::calculate_window_stats(uint64_t, uint64_t)`: the body is
`return {};`, the null JSON value. -/
def Correlator.calculate_window_stats (_c : Correlator) (_start_time _end_time : Nat) :
    Json :=
  Json.null

/-- `Correlator::save_finding(const Finding&)`: the body is empty — nothing
is written and no state changes. -/
def Correlator.save_finding (c : Correlator) (_finding : Finding) : Correlator :=
  c

/-- `Correlator::set_error`: overwrites `last_error_`. -/
def Correlator.set_error (c : Correlator) (e : String) : Correlator :=
  { c with last_error := e }

/-- `Correlator::is_in_window(uint64_t ts, uint64_t window_start)`:
`ts >= window_start && ts <= (window_start + (uint64_t)correlation_window_ms_)`,
the addition performed in `uint64_t` (mod `2 ^ 64`). -/
def Correlator.is_in_window (c : Correlator) (ts window_start : Nat) : Bool :=
  decide (ts ≥ window_start) &&
    decide (ts ≤ (window_start + toU64 c.correlation_window_ms) % U64)

/-- `Correlator::calculate_avg_rssi(uint64_t, uint64_t)`: `return 0.0;`
regardless of the buffers or the window bounds. -/
def Correlator.calculate_avg_rssi (_c : Correlator) (_start_time _end_time : Nat) :
    Rat :=
  0

/-- `Correlator::calculate_rssi_delta(uint64_t, uint64_t)`: `return 0.0;`
regardless of the buffers or the window bounds. -/
def Correlator.calculate_rssi_delta (_c : Correlator) (_start_time _end_time : Nat) :
    Rat :=
  0

end Environet.Correlate

namespace Environet.Sensors

open Environet

/-- Byte `i` (little-endian) of a non-negative machine integer. -/
def byteAt (n : Nat) (i : Nat) : Nat :=
  (n >>> (8 * i)) % 256

/-- The bytes of an `int16_t` value: its two's-complement representation
reduced modulo `2 ^ 16`. -/
def u16OfInt16 (v : Int) : Nat :=
  (v % (U16 : Int)).toNat

/-- The first `sizeof(SensorFrame) - sizeof(uint16_t) = 10` bytes of the
packed little-endian `SensorFrame` (`#pragma pack(1)`): `ts_ms` (4 bytes),
`ir_raw` (2), `ultra_mm` (2), `status` (1), `reserved` (1). These are the
bytes the CRC is computed over; the trailing `crc16` field is excluded. -/
def SensorFrame.bodyBytes (f : SensorFrame) : List Nat :=
  [byteAt f.ts_ms 0, byteAt f.ts_ms 1, byteAt f.ts_ms 2, byteAt f.ts_ms 3,
   byteAt (u16OfInt16 f.ir_raw) 0, byteAt (u16OfInt16 f.ir_raw) 1,
   byteAt f.ultra_mm 0, byteAt f.ultra_mm 1,
   f.status % 256, f.reserved % 256]

/-- One iteration of the inner bit loop of `ArduinoI2C::compute_crc16`:
shift left, conditionally XOR the CRC-16-CCITT polynomial `0x1021`, truncate
to `uint16_t`. -/
def crc16Bit (crc : Nat) : Nat :=
  if crc &&& 0x8000 ≠ 0 then ((crc <<< 1) ^^^ 0x1021) % U16
  else (crc <<< 1) % U16

/-- `ArduinoI2C::compute_crc16(const uint8_t*, size_t)` over a byte list:
initial value `0xFFFF`, per byte XOR the byte shifted into the high half and
run eight bit iterations. -/
def compute_crc16 (data : List Nat) : Nat :=
  data.foldl
    (fun crc b => (List.range 8).foldl (fun c _ => crc16Bit c) ((crc ^^^ (b <<< 8)) % U16))
    0xFFFF

/-- `ArduinoI2C::validate_crc16(const SensorFrame&)`: recompute the CRC over
the first `sizeof(SensorFrame) - sizeof(uint16_t)` bytes of the frame and
compare with the stored `crc16` field. -/
def validate_crc16 (f : SensorFrame) : Bool :=
  decide (compute_crc16 (SensorFrame.bodyBytes f) = f.crc16)

/-- `ArduinoI2C::generate_mock_frame`: the RNG/phase-driven quantities are
abstracted as parameters — `tsNew` is the advanced `mock_timestamp_`
(a `uint32_t`), `ir` the noisy sine sample before clamping, `ultra` the swept
distance value, `motion` the Bernoulli draw for the motion bit. The function
clamps `ir` to `[-512, 511]`, fills the fields, zeroes `reserved`, and stores
`compute_crc16` of all preceding bytes into `crc16`. -/
def generate_mock_frame (tsNew : Nat) (ir : Int) (ultra : Nat) (motion : Bool) :
    SensorFrame :=
  let irClamped : Int := if ir < -512 then -512 else if ir > 511 then 511 else ir
  let base : SensorFrame :=
    { ts_ms := tsNew % (2 ^ 32)
      ir_raw := irClamped
      ultra_mm := ultra % U16
      status := if motion then 0x01 else 0
      reserved := 0
      crc16 := 0 }
  { base with crc16 := compute_crc16 (SensorFrame.bodyBytes base) }

/-- `ArduinoI2C::read_frame_real`: the nondeterministic I2C bus is modelled
by its observable outcome — `initOk` stands for `fd_ >= 0` (and the read loop
completing), `first` is the frame assembled by the read loop, `retry` the
frame assembled by the one immediate full re-read attempted when the first
frame fails CRC validation (`none` when that re-read does not complete). A
frame is returned iff it passes `validate_crc16`; otherwise the call fails
with `set_error`. -/
def read_frame_real (initOk : Bool) (first : SensorFrame)
    (retry : Option SensorFrame) : Option SensorFrame :=
  if !initOk then none
  else if validate_crc16 first then some first
  else
    match retry with
    | some f2 => if validate_crc16 f2 then some f2 else none
    | none => none

/-- `ArduinoI2C::read_frame_mock`: generates a mock frame and returns
`true` unconditionally. -/
def read_frame_mock (tsNew : Nat) (ir : Int) (ultra : Nat) (motion : Bool) :
    Option SensorFrame :=
  some (generate_mock_frame tsNew ir ultra motion)

/-- The environment a `read_frame` call runs in: mock mode with the
RNG-driven quantities, or real mode with the bus outcome. -/
inductive ReadEnv where
  | mock (tsNew : Nat) (ir : Int) (ultra : Nat) (motion : Bool) : ReadEnv
  | real (initOk : Bool) (first : SensorFrame) (retry : Option SensorFrame) : ReadEnv

/-- `ArduinoI2C::read_frame`: dispatches on `mock_mode_`. -/
def read_frame : ReadEnv → Option SensorFrame
  | ReadEnv.mock tsNew ir ultra motion => read_frame_mock tsNew ir ultra motion
  | ReadEnv.real initOk first retry => read_frame_real initOk first retry

end Environet.Sensors

namespace Environet.Correlate

open Environet

/-- The five buffer kinds of the correlator. -/
inductive StreamKind where
  | sensor | bss | packet | ping | iperf
  deriving Repr, DecidableEq

/-- One ingestion call, tagged with its payload. -/
inductive PushOp where
  | sensor (frame : SensorFrame) : PushOp
  | bss (info : BssInfo) : PushOp
  | packet (meta : PacketMeta) : PushOp
  | ping (stats : PingStats) : PushOp
  | iperf (results : Iperf3Results) : PushOp

/-- The buffer an ingestion call writes to. -/
def PushOp.kind : PushOp → StreamKind
  | PushOp.sensor _ => StreamKind.sensor
  | PushOp.bss _ => StreamKind.bss
  | PushOp.packet _ => StreamKind.packet
  | PushOp.ping _ => StreamKind.ping
  | PushOp.iperf _ => StreamKind.iperf

/-- Run one ingestion call at clock reading `now`. -/
def applyPush (now : Nat) (op : PushOp) (c : Correlator) : Correlator :=
  match op with
  | PushOp.sensor f => c.push_sensor now f
  | PushOp.bss b => c.push_bss now b
  | PushOp.packet p => c.push_packet now p
  | PushOp.ping p => c.push_ping_stats now p
  | PushOp.iperf r => c.push_iperf3_results now r

/-- Run a sequence of ingestion calls; each pair is (clock reading at the
call, the call). -/
def applyTrace (trace : List (Nat × PushOp)) (c : Correlator) : Correlator :=
  trace.foldl (fun s p => applyPush p.1 p.2 s) c

/-- The stored timestamps of a buffer, in append order. -/
def bufTs (k : StreamKind) (c : Correlator) : List Nat :=
  match k with
  | StreamKind.sensor => c.sensor_buffer.map (fun p => p.timestamp_ms)
  | StreamKind.bss => c.bss_buffer.map (fun p => p.timestamp_ms)
  | StreamKind.packet => c.packet_buffer.map (fun p => p.timestamp_ms)
  | StreamKind.ping => c.ping_buffer.map (fun p => p.timestamp_ms)
  | StreamKind.iperf => c.iperf_buffer.map (fun p => p.timestamp_ms)

theorem bufTs_applyPush (k : StreamKind) (now : Nat) (op : PushOp)
    (c : Correlator) :
    bufTs k (applyPush now op c) =
      if op.kind = k then bufTs k c ++ [now] else bufTs k c := by
  cases op <;> cases k <;>
    simp [applyPush, PushOp.kind, bufTs, Correlator.push_sensor,
      Correlator.push_bss, Correlator.push_packet, Correlator.push_ping_stats,
      Correlator.push_iperf3_results]

theorem bufTs_applyTrace (k : StreamKind) (trace : List (Nat × PushOp))
    (c : Correlator) :
    bufTs k (applyTrace trace c) =
      bufTs k c ++
        (trace.filter (fun p => decide (p.2.kind = k))).map Prod.fst := by
  induction trace generalizing c with
  | nil => simp [applyTrace]
  | cons hd tl ih =>
    have hstep : applyTrace (hd :: tl) c = applyTrace tl (applyPush hd.1 hd.2 c) := by
      simp [applyTrace]
    rw [hstep, ih, bufTs_applyPush]
    by_cases hk : hd.2.kind = k
    · simp [hk, List.filter_cons]
    · simp [hk, List.filter_cons]

end Environet.Correlate

/-! ## Theorems settling the claims -/

namespace Environet.Correlate

open Environet

/-- The engine state after ingesting the scenario-A physical samples
`(ir=100, ultra=1200, status=0)` and `(ir=600, ultra=1200, status=0)` into a
freshly constructed correlator (whose `sensor_threshold_` is 200). -/
def scenarioAState : Correlator :=
  ((Correlator.construct "config/default.json").push_sensor 1000
      { ts_ms := 0, ir_raw := 100, ultra_mm := 1200, status := 0,
        reserved := 0, crc16 := 0 }).push_sensor 2000
      { ts_ms := 100, ir_raw := 600, ultra_mm := 1200, status := 0,
        reserved := 0, crc16 := 0 }

/-- C1: the spec says this sample pair with `sensor_threshold = 200` yields
exactly one magnitude trigger with `ir_raw_delta = 500` and one finding.
The code does not: `Correlator::process` is a stub returning the empty
vector, `Correlator::correlate_sensor_event` returns the empty vector, and
no finding is ledgered — the trigger detector does not exist in the code. -/
theorem scenarioA_produces_no_trigger_and_no_finding :
    (scenarioAState.process).2 = [] ∧
    scenarioAState.correlate_sensor_event
      { ts_ms := 100, ir_raw := 600, ultra_mm := 1200, status := 0,
        reserved := 0, crc16 := 0 } = [] ∧
    ((scenarioAState.process).1).findings = [] :=
  ⟨rfl, rfl, rfl⟩

/-- A buffer state holding one sensor sample stamped at time 0, far older
than any retention horizon once the clock reads e.g. `1000000`. -/
def staleBufferState : Correlator :=
  (Correlator.construct "config/default.json").push_sensor 0
    { ts_ms := 0, ir_raw := 0, ultra_mm := 0, status := 0,
      reserved := 0, crc16 := 0 }

/-- C2: the spec says pruning removes every sample with
`timestamp_ms < now - h`. The pruning operation in the code,
`Correlator::cleanup_old_data`, has an empty body: it is the identity on the
engine state, so the sample stamped 0 survives pruning even when
`now = 1000000` and `h = 10000` (`0 < 1000000 - 10000`). -/
theorem cleanup_old_data_removes_nothing :
    (∀ c : Correlator, c.cleanup_old_data = c) ∧
    bufTs StreamKind.sensor (staleBufferState.cleanup_old_data) = [0] ∧
    (0 : Nat) < 1000000 - 10000 :=
  ⟨fun _ => rfl, rfl, by decide⟩

/-- C3: the spec's dispatch pipeline (append to ledger, invoke callback,
durably persist, increment `correlations_found`) does not run: `process`
returns the state unchanged with an empty finding list, and `save_finding`
has an empty body. No `Finding` is ever produced, so none is ledgered,
dispatched or persisted, and `correlations_found_` is never incremented
anywhere in the code. -/
theorem finding_dispatch_pipeline_is_inert (c : Correlator) (f : Finding) :
    c.process = (c, []) ∧
    c.save_finding f = c ∧
    ((c.process).1).correlations_found = c.correlations_found ∧
    ((c.process).1).findings = c.findings :=
  ⟨rfl, rfl, rfl, rfl⟩

/-- A configuration with an invalid (non-positive) correlation window. -/
def invalidWindowConfig : Core.Config :=
  { correlator := { window_ms := 0 } }

/-- C4: the spec says invalid threshold/window configuration is fatal at
engine construction. `Config::validate` would indeed reject
`correlator.window_ms = 0`, but `Correlator::Correlator` never loads or
validates any configuration — it ignores `config_path` entirely, always
constructs with the hard-coded defaults, and `init()` always returns `true`
with an empty last error. Engine construction cannot fail. -/
theorem engine_construction_never_fails_on_invalid_config :
    Core.Config.validate invalidWindowConfig =
      Except.error "correlator.window_ms must be > 0" ∧
    (∀ p : String, Correlator.construct p = Correlator.construct "") ∧
    ((Correlator.construct "invalid.json").init 0).2 = true ∧
    (((Correlator.construct "invalid.json").init 0).1).get_last_error = "" :=
  ⟨rfl, fun _ => rfl, rfl, rfl⟩

/-- C10: for every `config_path`, construction succeeds with
`sensor_threshold = 200`, `correlation_window_ms = 5000`,
`findings_dir = "findings"`; `init()` returns `true` and `get_last_error()`
returns the empty string; and the constructed state is independent of the
path — the configuration file is never consulted. -/
theorem construct_ignores_config_path (path : String) (now : Nat) :
    (Correlator.construct path).sensor_threshold = 200 ∧
    (Correlator.construct path).correlation_window_ms = 5000 ∧
    (Correlator.construct path).findings_dir = "findings" ∧
    ((Correlator.construct path).init now).2 = true ∧
    (((Correlator.construct path).init now).1).get_last_error = "" ∧
    Correlator.construct path = Correlator.construct "" :=
  ⟨rfl, rfl, rfl, rfl, rfl, rfl⟩

end Environet.Correlate

namespace Environet.Correlate

open Environet

/-- C5: over any sequence of ingest calls whose successive steady-clock
readings are non-decreasing (the C++ `steady_clock` guarantee), every one of
the five buffers of a freshly constructed engine ends up with non-decreasing
timestamps, and every stored timestamp is one of the clock readings — it is
assigned from the engine's ingestion-time clock, never from a
producer-supplied device time (the payloads, including `SensorFrame.ts_ms`,
do not enter `bufTs` at all). -/
theorem buffer_timestamps_monotone (path : String)
    (trace : List (Nat × PushOp)) (k : StreamKind)
    (hmono : List.Chain' (· ≤ ·) (trace.map Prod.fst)) :
    List.Chain' (· ≤ ·) (bufTs k (applyTrace trace (Correlator.construct path))) ∧
    ∀ ts ∈ bufTs k (applyTrace trace (Correlator.construct path)),
      ts ∈ trace.map Prod.fst := by
  have hinit : bufTs k (Correlator.construct path) = [] := by
    cases k <;> rfl
  rw [bufTs_applyTrace, hinit, List.nil_append]
  have hsub :
      List.Sublist ((trace.filter (fun p => decide (p.2.kind = k))).map Prod.fst)
        (trace.map Prod.fst) :=
    (List.filter_sublist trace).map Prod.fst
  constructor
  · have hp : List.Pairwise (· ≤ ·) (trace.map Prod.fst) :=
      List.chain'_iff_pairwise.mp hmono
    exact (hp.sublist hsub).chain'
  · intro ts hts
    exact hsub.subset hts

/-- Witness for C5 at a concrete two-push trace with clock readings 1 and
2. -/
theorem buffer_timestamps_monotone_check :
    List.Chain' (· ≤ ·)
      (bufTs StreamKind.sensor
        (applyTrace
          [(1, PushOp.sensor { ts_ms := 999, ir_raw := 0, ultra_mm := 0,
                               status := 0, reserved := 0, crc16 := 0 }),
           (2, PushOp.sensor { ts_ms := 5, ir_raw := 0, ultra_mm := 0,
                               status := 0, reserved := 0, crc16 := 0 })]
          (Correlator.construct "cfg.json"))) :=
  (buffer_timestamps_monotone "cfg.json"
    [(1, PushOp.sensor { ts_ms := 999, ir_raw := 0, ultra_mm := 0,
                         status := 0, reserved := 0, crc16 := 0 }),
     (2, PushOp.sensor { ts_ms := 5, ir_raw := 0, ultra_mm := 0,
                         status := 0, reserved := 0, crc16 := 0 })]
    StreamKind.sensor (by simp)).1

/-- C6 counterexample: the claim quantifies over every `uint64_t` timestamp
and window start, but `window_start + correlation_window_ms` is computed in
`uint64_t` and wraps. At `window_start = ts = 2^64 - 1` the mathematical
interval `[t, t + w]` contains `ts`, yet `is_in_window` returns `false`
because the sum wraps to `4999`. -/
theorem is_in_window_wraps_at_u64_max :
    (Correlator.construct "config/default.json").is_in_window
        (U64 - 1) (U64 - 1) = false ∧
    (U64 - 1 ≤ U64 - 1 ∧
      U64 - 1 ≤ (U64 - 1) +
        toU64 (Correlator.construct "config/default.json").correlation_window_ms) :=
  ⟨by decide, le_refl _, Nat.le_add_right _ _⟩

/-- C6 amended: provided `window_start + correlation_window_ms` does not
overflow `uint64_t`, `is_in_window ts window_start` returns `true` iff
`window_start ≤ ts ∧ ts ≤ window_start + correlation_window_ms` — the closed
forward-looking interval `[t, t + w]`. -/
theorem is_in_window_closed_interval (path : String) (ts ws : Nat)
    (h : ws + toU64 (Correlator.construct path).correlation_window_ms < U64) :
    (Correlator.construct path).is_in_window ts ws = true ↔
      ws ≤ ts ∧
        ts ≤ ws + toU64 (Correlator.construct path).correlation_window_ms := by
  have hmod :
      (ws + toU64 (Correlator.construct path).correlation_window_ms) % U64 =
        ws + toU64 (Correlator.construct path).correlation_window_ms :=
    Nat.mod_eq_of_lt h
  simp [Correlator.is_in_window, hmod, ge_iff_le]

/-- Witness for the amended C6 at `ts = 3`, `window_start = 1`. -/
theorem is_in_window_closed_interval_check :
    (Correlator.construct "cfg.json").is_in_window 3 1 = true ↔
      1 ≤ 3 ∧
        3 ≤ 1 + toU64 (Correlator.construct "cfg.json").correlation_window_ms :=
  is_in_window_closed_interval "cfg.json" 3 1 (by decide)

/-- C7: aggregating any window against an empty access-point buffer yields
`rssi_avg = 0.0`, `rssi_delta = 0.0` and no affected networks, and a missing
pre-trigger baseline yields a delta of `0.0` rather than an error: the code's
`calculate_avg_rssi` and `calculate_rssi_delta` return `0.0` and
`calculate_window_stats` returns the null JSON value (no
`affected_networks`), with no error channel. -/
theorem empty_bss_buffer_yields_zero_stats (c : Correlator)
    (start_time end_time : Nat) (_hempty : c.bss_buffer = []) :
    c.calculate_avg_rssi start_time end_time = 0 ∧
    c.calculate_rssi_delta start_time end_time = 0 ∧
    affectedNetworksOf (c.calculate_window_stats start_time end_time) = [] ∧
    c.last_error = c.last_error :=
  ⟨rfl, rfl, rfl, rfl⟩

/-- Witness for C7 on a freshly constructed engine (whose `bss_buffer_` is
empty) and the window `[0, 5000]`. -/
theorem empty_bss_buffer_yields_zero_stats_check :
    (Correlator.construct "cfg.json").calculate_avg_rssi 0 5000 = 0 ∧
    (Correlator.construct "cfg.json").calculate_rssi_delta 0 5000 = 0 ∧
    affectedNetworksOf
      ((Correlator.construct "cfg.json").calculate_window_stats 0 5000) = [] ∧
    (Correlator.construct "cfg.json").last_error =
      (Correlator.construct "cfg.json").last_error :=
  empty_bss_buffer_yields_zero_stats (Correlator.construct "cfg.json") 0 5000 rfl

/-- C8: starting from any engine state, after a `process()` call and any
further ingestion that contains no physical (sensor) sample, the next
`process()` call returns the empty finding list and leaves `get_stats()`
(the three counters) unchanged: `process` is the stub `return {};`, which
mutates nothing (in particular pruning, a no-op, affects nothing either). -/
theorem process_without_new_sensor_samples_is_idle (c : Correlator)
    (trace : List (Nat × PushOp))
    (_hns : ∀ p ∈ trace, p.2.kind ≠ StreamKind.sensor) :
    ((applyTrace trace ((c.process).1)).process).2 = [] ∧
    (((applyTrace trace ((c.process).1)).process).1).get_stats =
      (applyTrace trace ((c.process).1)).get_stats :=
  ⟨rfl, rfl⟩

/-- Witness for C8: one intervening access-point push, no sensor pushes. -/
theorem process_without_new_sensor_samples_is_idle_check :
    ((applyTrace [(7, PushOp.bss {})]
        (((Correlator.construct "cfg.json").process).1)).process).2 = [] ∧
    (((applyTrace [(7, PushOp.bss {})]
        (((Correlator.construct "cfg.json").process).1)).process).1).get_stats =
      (applyTrace [(7, PushOp.bss {})]
        (((Correlator.construct "cfg.json").process).1)).get_stats :=
  process_without_new_sensor_samples_is_idle (Correlator.construct "cfg.json")
    [(7, PushOp.bss {})] (by intro p hp; simp at hp; simp [hp, PushOp.kind])

end Environet.Correlate

namespace Environet.Sensors

open Environet

theorem validate_crc16_eq (f : SensorFrame) (h : validate_crc16 f = true) :
    f.crc16 = compute_crc16 (SensorFrame.bodyBytes f) :=
  (of_decide_eq_true h).symm

/-- C9: every sensor frame that `read_frame` returns successfully — in mock
mode, where `generate_mock_frame` stamps `crc16` with `compute_crc16` over
the preceding bytes, and in real mode, where `read_frame_real` returns a
frame only after `validate_crc16` accepts it — carries a `crc16` field equal
to the CRC-16-CCITT (polynomial `0x1021`, initial value `0xFFFF`, exactly
the constants of `compute_crc16`) of the frame's preceding bytes. -/
theorem read_frame_success_has_valid_crc (env : ReadEnv) (f : SensorFrame)
    (h : read_frame env = some f) :
    f.crc16 = compute_crc16 (SensorFrame.bodyBytes f) := by
  cases env with
  | mock tsNew ir ultra motion =>
    simp only [read_frame, read_frame_mock, Option.some.injEq] at h
    subst h
    rfl
  | real initOk first retry =>
    by_cases hok : initOk
    · by_cases h1 : validate_crc16 first
      · simp [read_frame, read_frame_real, hok, h1] at h
        subst h
        exact validate_crc16_eq first h1
      · cases retry with
        | none => simp [read_frame, read_frame_real, hok, h1] at h
        | some f2 =>
          by_cases h2 : validate_crc16 f2
          · simp [read_frame, read_frame_real, hok, h1, h2] at h
            subst h
            exact validate_crc16_eq f2 h2
          · simp [read_frame, read_frame_real, hok, h1, h2] at h
    · simp [read_frame, read_frame_real, hok] at h

/-- Witness for C9 on a concrete mock read (`tsNew = 100`, `ir = 250`,
`ultra = 1200`, motion bit clear). -/
theorem read_frame_success_has_valid_crc_check :
    (generate_mock_frame 100 250 1200 false).crc16 =
      compute_crc16 (SensorFrame.bodyBytes (generate_mock_frame 100 250 1200 false)) :=
  read_frame_success_has_valid_crc (ReadEnv.mock 100 250 1200 false)
    (generate_mock_frame 100 250 1200 false) rfl

end Environet.Sensors
